import Mathlib

/-!
Verification of the Khair backend product-engagement and analysis endpoints
(src/backend/app.py).

The product store is a JSON array of objects loaded with json.load, mutated
in memory and rewritten wholesale on persist.  We model Python runtime JSON
values with `JValue`; JSON/Python numbers are modelled as `Int` (the
engagement endpoints only ever manipulate integral counters, and no claim
depends on fractional arithmetic).  Python `bool` is a subclass of `int`, so
`isinstance(v, (int, float))` is true for booleans: `pyNum` reflects that.

Each Flask handler is embedded as a pure function from the stored collection
(plus the request data and the current-time string produced by
`datetime.utcnow().isoformat()`) to a response together with the collection
as persisted on disk after the request.  A handler that never executes the
`open(path, 'w')` write returns the store unchanged as its persisted
component.  Exceptions raised inside the handler body are caught by the
surrounding `except Exception` and surface as the 500 server-error response,
with no write having happened.
-/

/-- Python values arising from `json.load` (numbers collapsed to `Int`). -/
inductive JValue where
  | jnull
  | jbool (b : Bool)
  | jnum (n : Int)
  | jstr (s : String)
  | jarr (elems : List JValue)
  | jobj (fields : List (String × JValue))

/-- A Python dict as produced by `json.load`: association list in insertion
order, keys unique. -/
abbrev JObj := List (String × JValue)

/-- Dict key lookup: `o[k]` / `k in o`. -/
def lookupKey : JObj → String → Option JValue
  | [], _ => none
  | (k', v) :: rest, k => if k' = k then some v else lookupKey rest k

/-- Python `k in o` membership test on a dict. -/
def hasKey (o : JObj) (k : String) : Bool :=
  (lookupKey o k).isSome

/-- Dict assignment `o[k] = v`: replaces the value in place when the key
exists (preserving insertion order), appends otherwise. -/
def setKey : JObj → String → JValue → JObj
  | [], k, v => [(k, v)]
  | (k', v') :: rest, k, v =>
      if k' = k then (k, v) :: rest else (k', v') :: setKey rest k v

/-- `isinstance(v, (int, float))` together with the numeric value: Python
booleans are ints (`True == 1`), so they pass the check. -/
def pyNum : JValue → Option Int
  | .jnum n => some n
  | .jbool b => some (if b then 1 else 0)
  | _ => none

/-- The dict literal used for lazy initialization of `engagement_stats`
(app.py lines 288-295, 306-313, 352-359). -/
def initialStats (now : String) : JObj :=
  [("likes", .jnum 0), ("dislikes", .jnum 0), ("rerolls", .jnum 0),
   ("routines", .jnum 0), ("views", .jnum 0), ("last_updated", .jstr now)]

/-- The product-lookup loop of `update_product_engagement` (app.py lines
275-279): scan for the first record whose `id` equals the path parameter.
A record lacking the `id` key raises `KeyError` (caught as a 500);
`product['id'] == product_id` compares a JSON value with a Python string,
which is `True` exactly for that string. -/
def findProductIndex : List JObj → String → Nat → Except Unit (Option Nat)
  | [], _, _ => .ok none
  | p :: rest, pid, i =>
      match lookupKey p "id" with
      | none => .error ()
      | some (.jstr s) =>
          if s = pid then .ok (some i) else findProductIndex rest pid (i + 1)
      | some _ => findProductIndex rest pid (i + 1)

/-- Responses of the engagement endpoint. -/
inductive EngResult where
  | notFound
  | badRequest
  | serverError
  | okStats (stats : JValue)
  | okRecord (record : JObj)

/-- HTTP status code of an engagement response. -/
def engStatus : EngResult → Nat
  | .notFound => 404
  | .badRequest => 400
  | .serverError => 500
  | .okStats _ => 200
  | .okRecord _ => 200

/-- The repeated `Initialize engagement_stats if it doesn't exist` block
(app.py lines 287-295, 305-313, 351-359): add the all-zero stats object
exactly when the key is absent. -/
def ensureStats (p : JObj) (now : String) : JObj :=
  if hasKey p "engagement_stats" then p
  else setKey p "engagement_stats" (.jobj (initialStats now))

/-- The delta-application loop of the PUT branch (app.py lines 316-323):
for each request key present in the record's `engagement_stats` and distinct
from `last_updated`, coerce a non-numeric stored value to 0 and add the
delta.  A non-numeric delta makes `current_value + value` raise `TypeError`,
aborting the handler (caught as a 500 before any write). -/
def applyDeltas : JObj → List (String × JValue) → Except Unit JObj
  | stats, [] => .ok stats
  | stats, (k, v) :: rest =>
      if hasKey stats k && k != "last_updated" then
        match pyNum v with
        | some d =>
            let cur := (lookupKey stats k).getD .jnull
            applyDeltas (setKey stats k (.jnum ((pyNum cur).getD 0 + d))) rest
        | none => .error ()
      else applyDeltas stats rest

/-- GET branch of `update_product_engagement` (app.py lines 271-296): find
the product, lazily build `engagement_stats` in memory when the key is
absent, and return it.  The GET branch contains no `open(path, 'w')`, so
the persisted collection (second component) is always the store that was
read. -/
def update_product_engagement_GET (store : List JObj) (pid : String)
    (now : String) : EngResult × List JObj :=
  match findProductIndex store pid 0 with
  | .error _ => (.serverError, store)
  | .ok none => (.notFound, store)
  | .ok (some i) =>
      match lookupKey (ensureStats (store.getD i []) now) "engagement_stats" with
      | some v => (.okStats v, store)
      | none => (.serverError, store)

/-- PUT branch of `update_product_engagement` (app.py lines 271-332).
`isJson` is `request.is_json` (a content-type check only); `body` is the
result of parsing the request body (`none` when `request.json` raises,
caught as a 500).  A body or stored `engagement_stats` that is not a dict
makes `.items()` / item assignment raise (500, no write).  On success the
whole collection with the updated record is written back and the full
record returned. -/
def update_product_engagement_PUT (store : List JObj) (pid : String)
    (isJson : Bool) (body : Option JValue) (now : String) :
    EngResult × List JObj :=
  match findProductIndex store pid 0 with
  | .error _ => (.serverError, store)
  | .ok none => (.notFound, store)
  | .ok (some i) =>
      if !isJson then (.badRequest, store)
      else
        match body with
        | none => (.serverError, store)
        | some bodyVal =>
            match bodyVal,
                lookupKey (ensureStats (store.getD i []) now) "engagement_stats" with
            | .jobj data, some (.jobj stats) =>
                match applyDeltas stats data with
                | .error _ => (.serverError, store)
                | .ok stats1 =>
                    (.okRecord (setKey (ensureStats (store.getD i []) now)
                        "engagement_stats"
                        (.jobj (setKey stats1 "last_updated" (.jstr now)))),
                     store.set i (setKey (ensureStats (store.getD i []) now)
                        "engagement_stats"
                        (.jobj (setKey stats1 "last_updated" (.jstr now)))))
            | _, _ => (.serverError, store)

/-- `initialize_all_product_engagement` (app.py lines 338-365): one
timestamp for the whole batch, every record lacking `engagement_stats`
initialized, one write at the end, and a message counting `len(products)`.
Returns the success message together with the persisted collection. -/
def initialize_all_product_engagement (store : List JObj) (now : String) :
    String × List JObj :=
  let store' := store.map (fun p => ensureStats p now)
  ("Initialized engagement stats for " ++ toString store.length ++ " products",
   store')

/-- Responses of `/api/analyze`. -/
inductive AnalyzeResult where
  | badRequest (msg : String)
  | serverError (msg : String)
  | okClassification

/-- HTTP status code of an analyze response. -/
def analyzeStatus : AnalyzeResult → Nat
  | .badRequest _ => 400
  | .serverError _ => 500
  | .okClassification => 200

/-- Python truthiness of a JSON value (`if not image_data`). -/
def truthy : JValue → Bool
  | .jnull => false
  | .jbool b => b
  | .jnum n => n != 0
  | .jstr s => s != ""
  | .jarr elems => !elems.isEmpty
  | .jobj fields => !fields.isEmpty

/-- `image_data.split(',', 1)[1]` applied when `',' in image_data`
(app.py lines 166-167): drop everything up to the first comma. -/
def stripDataUri (s : String) : String :=
  if s.contains ',' then
    match s.splitOn "," with
    | [] => ""
    | _ :: rest => String.intercalate "," rest
  else s

/-- `analyze_hair` (app.py lines 147-203).  `isJson` is the content-type
check `request.is_json`; `body` is the parse result of the request body
(`none` when `request.json` raises `BadRequest`, caught by the outer
`except Exception` as a 500); `decodes` abstracts the base64-decode /
`Image.open` / `verify` pipeline on the stripped string; `classifies`
abstracts `classifier.predict` succeeding.  A parsed body that is not a
dict makes `request.json.get` raise `AttributeError` (500); every error in
the inner decode block — including `',' in image_data` or
`b64decode(image_data)` raising on a truthy non-string — yields the 400
invalid-image response. -/
def analyze_hair (isJson : Bool) (body : Option JValue)
    (decodes : String → Bool) (classifies : String → Bool) : AnalyzeResult :=
  if !isJson then .badRequest "Request must be JSON"
  else
    match body with
    | none => .serverError "Server error"
    | some (.jobj o) =>
        let image := (lookupKey o "image").getD .jnull
        if !truthy image then .badRequest "No image provided"
        else
          match image with
          | .jstr s =>
              if decodes (stripDataUri s) then
                if classifies (stripDataUri s) then .okClassification
                else .serverError "Classification failed"
              else .badRequest "Invalid image format"
          | _ => .badRequest "Invalid image format"
    | some _ => .serverError "Server error"

/-! ### Concrete fixtures used to exercise the handlers -/

/-- Fully-populated stats object with likes = 5 and the other counters 0. -/
def demoStats : JObj :=
  [("likes", .jnum 5), ("dislikes", .jnum 0), ("rerolls", .jnum 0),
   ("routines", .jnum 0), ("views", .jnum 0), ("last_updated", .jstr "t0")]

/-- Store with product p1 carrying `demoStats` and product p2 with no stats. -/
def demoStore : List JObj :=
  [[("id", .jstr "p1"), ("engagement_stats", .jobj demoStats)],
   [("id", .jstr "p2")]]

/-- Stats of p1 after a PUT of likes += 3 at time t1. -/
def demoStatsAfter : JObj :=
  [("likes", .jnum 8), ("dislikes", .jnum 0), ("rerolls", .jnum 0),
   ("routines", .jnum 0), ("views", .jnum 0), ("last_updated", .jstr "t1")]

/-- Record of p1 after a PUT of likes += 3 at time t1. -/
def demoRecAfter : JObj :=
  [("id", .jstr "p1"), ("engagement_stats", .jobj demoStatsAfter)]

/-- Store persisted after a PUT of likes += 3 to p1 at time t1. -/
def demoStoreAfter : List JObj := [demoRecAfter, [("id", .jstr "p2")]]

/-- Record of p1 after a PUT carrying only an unrecognized key at time t1:
counters untouched, timestamp restamped. -/
def demoRecStamped : JObj :=
  [("id", .jstr "p1"), ("engagement_stats", .jobj
    [("likes", .jnum 5), ("dislikes", .jnum 0), ("rerolls", .jnum 0),
     ("routines", .jnum 0), ("views", .jnum 0), ("last_updated", .jstr "t1")])]

/-- Store persisted after the unrecognized-key PUT to p1 at time t1. -/
def demoStoreStamped : List JObj := [demoRecStamped, [("id", .jstr "p2")]]

/-- Stats object with a corrupted (non-numeric) likes counter. -/
def corruptStats : JObj :=
  [("likes", .jstr "corrupt"), ("last_updated", .jstr "t0")]

/-- Store whose product p1 carries the corrupted stats. -/
def corruptStore : List JObj :=
  [[("id", .jstr "p1"), ("engagement_stats", .jobj corruptStats)]]

/-- Record of p1 in `corruptStore` after a PUT of likes += 7 at time t1:
the corrupted value was coerced to 0 before adding. -/
def corruptRecAfter : JObj :=
  [("id", .jstr "p1"), ("engagement_stats", .jobj
    [("likes", .jnum 7), ("last_updated", .jstr "t1")])]

/-- Record of p1 after a PUT of views += 2 to a store where p1 had no
engagement_stats at all: full lazy initialization, then the delta. -/
def freshRecAfter : JObj :=
  [("id", .jstr "p1"), ("engagement_stats", .jobj
    [("likes", .jnum 0), ("dislikes", .jnum 0), ("rerolls", .jnum 0),
     ("routines", .jnum 0), ("views", .jnum 2), ("last_updated", .jstr "t1")])]

/-! ### Dictionary lemmas -/

theorem lookup_setKey_self (o : JObj) (k : String) (v : JValue) :
    lookupKey (setKey o k v) k = some v := by
  induction o with
  | nil => simp [setKey, lookupKey]
  | cons hd tl ih =>
      obtain ⟨k1, v1⟩ := hd
      by_cases h1 : k1 = k
      · simp [setKey, lookupKey, h1]
      · simp [setKey, lookupKey, h1, ih]

theorem lookup_setKey_ne (o : JObj) (k k' : String) (v : JValue) (h : k' ≠ k) :
    lookupKey (setKey o k v) k' = lookupKey o k' := by
  induction o with
  | nil => simp [setKey, lookupKey, Ne.symm h]
  | cons hd tl ih =>
      obtain ⟨k1, v1⟩ := hd
      by_cases h1 : k1 = k
      · subst h1
        simp [setKey, lookupKey, Ne.symm h]
      · simp only [setKey, if_neg h1]
        by_cases h2 : k1 = k'
        · simp [lookupKey, h2]
        · simp [lookupKey, h2, ih]

theorem hasKey_setKey_self (o : JObj) (k : String) (v : JValue) :
    hasKey (setKey o k v) k = true := by
  simp [hasKey, lookup_setKey_self]

theorem hasKey_setKey_ne (o : JObj) (k k' : String) (v : JValue) (h : k' ≠ k) :
    hasKey (setKey o k v) k' = hasKey o k' := by
  simp [hasKey, lookup_setKey_ne o k k' v h]

/-! ### Lemmas about the delta-application loop -/

theorem applyDeltas_hasKey (data : List (String × JValue)) :
    ∀ stats stats', applyDeltas stats data = .ok stats' →
      ∀ k, hasKey stats' k = hasKey stats k := by
  induction data with
  | nil =>
      intro stats stats' h k
      simp only [applyDeltas, Except.ok.injEq] at h
      subst h; rfl
  | cons hd rest ih =>
      intro stats stats' h k
      obtain ⟨k1, v1⟩ := hd
      simp only [applyDeltas] at h
      by_cases hg : (hasKey stats k1 && k1 != "last_updated") = true
      · rw [if_pos hg] at h
        have hk1 : hasKey stats k1 = true := (Bool.and_eq_true _ _ |>.mp hg).1
        cases hv : pyNum v1 with
        | none => rw [hv] at h; cases h
        | some d =>
            rw [hv] at h
            rw [ih _ _ h k]
            by_cases hk : k = k1
            · subst hk
              rw [hasKey_setKey_self, hk1]
            · rw [hasKey_setKey_ne _ _ _ _ hk]
      · rw [if_neg hg] at h
        exact ih _ _ h k

theorem applyDeltas_lookup_not_mem (data : List (String × JValue)) :
    ∀ stats stats', applyDeltas stats data = .ok stats' →
      ∀ k, k ∉ data.map Prod.fst → lookupKey stats' k = lookupKey stats k := by
  induction data with
  | nil =>
      intro stats stats' h k _
      simp only [applyDeltas, Except.ok.injEq] at h
      subst h; rfl
  | cons hd rest ih =>
      intro stats stats' h k hk
      obtain ⟨k1, v1⟩ := hd
      have hne : k ≠ k1 := by
        intro he; exact hk (by simp [he])
      have hrest : k ∉ rest.map Prod.fst := by
        intro he; exact hk (by simp [he])
      simp only [applyDeltas] at h
      by_cases hg : (hasKey stats k1 && k1 != "last_updated") = true
      · rw [if_pos hg] at h
        cases hv : pyNum v1 with
        | none => rw [hv] at h; cases h
        | some d =>
            rw [hv] at h
            rw [ih _ _ h k hrest]
            exact lookup_setKey_ne _ _ _ _ hne
      · rw [if_neg hg] at h
        exact ih _ _ h k hrest

theorem applyDeltas_lookup_not_has (data : List (String × JValue)) :
    ∀ stats stats', applyDeltas stats data = .ok stats' →
      ∀ k, hasKey stats k = false → lookupKey stats' k = lookupKey stats k := by
  induction data with
  | nil =>
      intro stats stats' h k _
      simp only [applyDeltas, Except.ok.injEq] at h
      subst h; rfl
  | cons hd rest ih =>
      intro stats stats' h k hk
      obtain ⟨k1, v1⟩ := hd
      simp only [applyDeltas] at h
      by_cases hg : (hasKey stats k1 && k1 != "last_updated") = true
      · rw [if_pos hg] at h
        have hk1 : hasKey stats k1 = true := (Bool.and_eq_true _ _ |>.mp hg).1
        have hne : k ≠ k1 := by
          intro he; rw [he, hk1] at hk; cases hk
        cases hv : pyNum v1 with
        | none => rw [hv] at h; cases h
        | some d =>
            rw [hv] at h
            have hk' : hasKey (setKey stats k1 (.jnum ((pyNum ((lookupKey stats k1).getD .jnull)).getD 0 + d))) k = false := by
              rw [hasKey_setKey_ne _ _ _ _ hne]; exact hk
            rw [ih _ _ h k hk']
            exact lookup_setKey_ne _ _ _ _ hne
      · rw [if_neg hg] at h
        exact ih _ _ h k hk

theorem applyDeltas_lookup_mem (data : List (String × JValue)) :
    ∀ stats stats', applyDeltas stats data = .ok stats' →
      (data.map Prod.fst).Nodup →
      ∀ k v d, (k, v) ∈ data → hasKey stats k = true → k ≠ "last_updated" →
        pyNum v = some d →
        lookupKey stats' k =
          some (.jnum ((pyNum ((lookupKey stats k).getD .jnull)).getD 0 + d)) := by
  induction data with
  | nil =>
      intro stats stats' _ _ k v d hmem
      cases hmem
  | cons hd rest ih =>
      intro stats stats' h hnd k v d hmem hk hklu hd1
      obtain ⟨k1, v1⟩ := hd
      simp only [List.map_cons, List.nodup_cons] at hnd
      obtain ⟨hk1rest, hndrest⟩ := hnd
      simp only [applyDeltas] at h
      rcases List.mem_cons.mp hmem with heq | hmemrest
      · obtain ⟨he1, he2⟩ := Prod.mk.injEq .. ▸ heq
        subst he1; subst he2
        have hguard : (hasKey stats k && k != "last_updated") = true := by
          rw [hk]; simp [hklu]
        rw [if_pos hguard, hd1] at h
        have hnotmem : k ∉ rest.map Prod.fst := hk1rest
        rw [applyDeltas_lookup_not_mem rest _ _ h k hnotmem]
        exact lookup_setKey_self _ _ _
      · have hne : k ≠ k1 := by
          intro he
          exact hk1rest (he ▸ List.mem_map_of_mem Prod.fst hmemrest)
        by_cases hg : (hasKey stats k1 && k1 != "last_updated") = true
        · rw [if_pos hg] at h
          cases hv : pyNum v1 with
          | none => rw [hv] at h; cases h
          | some d1 =>
              rw [hv] at h
              have hk2 : hasKey (setKey stats k1 (.jnum ((pyNum ((lookupKey stats k1).getD .jnull)).getD 0 + d1))) k = true := by
                rw [hasKey_setKey_ne _ _ _ _ hne]; exact hk
              have := ih _ _ h hndrest k v d hmemrest hk2 hklu hd1
              rw [this, lookup_setKey_ne _ _ _ _ hne]
        · rw [if_neg hg] at h
          exact ih _ _ h hndrest k v d hmemrest hk hklu hd1

/-! ### Lemmas about lazy initialization and list update -/

theorem ensureStats_of_hasKey (p : JObj) (now : String)
    (h : hasKey p "engagement_stats" = true) : ensureStats p now = p := by
  unfold ensureStats
  rw [if_pos h]

theorem ensureStats_of_not_hasKey (p : JObj) (now : String)
    (h : hasKey p "engagement_stats" = false) :
    ensureStats p now = setKey p "engagement_stats" (.jobj (initialStats now)) := by
  unfold ensureStats
  rw [h]
  rfl

theorem ensureStats_hasKey (p : JObj) (now : String) :
    hasKey (ensureStats p now) "engagement_stats" = true := by
  by_cases h : hasKey p "engagement_stats" = true
  · rw [ensureStats_of_hasKey p now h]; exact h
  · rw [ensureStats_of_not_hasKey p now (Bool.eq_false_iff.mpr h)]
    exact hasKey_setKey_self _ _ _

theorem ensureStats_idem (p : JObj) (now1 now2 : String) :
    ensureStats (ensureStats p now1) now2 = ensureStats p now1 :=
  ensureStats_of_hasKey _ now2 (ensureStats_hasKey p now1)

theorem lookup_ensureStats_ne (p : JObj) (now : String) (k : String)
    (h : k ≠ "engagement_stats") :
    lookupKey (ensureStats p now) k = lookupKey p k := by
  by_cases h1 : hasKey p "engagement_stats" = true
  · rw [ensureStats_of_hasKey p now h1]
  · rw [ensureStats_of_not_hasKey p now (Bool.eq_false_iff.mpr h1)]
    exact lookup_setKey_ne _ _ _ _ h

theorem getD_set_of_ne (l : List JObj) (i j : Nat) (x : JObj) (h : j ≠ i) :
    (l.set i x).getD j [] = l.getD j [] := by
  induction l generalizing i j with
  | nil => simp
  | cons hd tl ih =>
      cases i with
      | zero =>
          cases j with
          | zero => exact absurd rfl h
          | succ j => simp [List.getD]
      | succ i =>
          cases j with
          | zero => simp [List.getD]
          | succ j =>
              simp only [List.set, List.getD_cons_succ]
              exact ih i j (fun he => h (by rw [he]))

theorem getD_map_ensureStats (l : List JObj) (now : String) :
    ∀ i, i < l.length →
      (l.map (fun p => ensureStats p now)).getD i [] = ensureStats (l.getD i []) now := by
  induction l with
  | nil => intro i h; cases h
  | cons hd tl ih =>
      intro i h
      cases i with
      | zero => simp [List.getD]
      | succ i =>
          simp only [List.map_cons, List.getD_cons_succ]
          exact ih i (Nat.lt_of_succ_lt_succ h)

/-! ### Inversion of a successful PUT -/

theorem update_PUT_ok_inv {store : List JObj} {pid : String} {isJson : Bool}
    {body : Option JValue} {now : String} {rec : JObj} {st' : List JObj}
    (h : update_product_engagement_PUT store pid isJson body now =
          (.okRecord rec, st')) :
    ∃ i data stats stats1,
      findProductIndex store pid 0 = .ok (some i) ∧
      isJson = true ∧
      body = some (.jobj data) ∧
      lookupKey (ensureStats (store.getD i []) now) "engagement_stats" =
        some (.jobj stats) ∧
      applyDeltas stats data = .ok stats1 ∧
      rec = setKey (ensureStats (store.getD i []) now) "engagement_stats"
              (.jobj (setKey stats1 "last_updated" (.jstr now))) ∧
      st' = store.set i rec := by
  unfold update_product_engagement_PUT at h
  split at h
  · exact absurd h (by simp)
  · exact absurd h (by simp)
  · rename_i i hf
    split at h
    · exact absurd h (by simp)
    · rename_i hjson
      split at h
      · exact absurd h (by simp)
      · split at h
        · rename_i data stats heq
          split at h
          · exact absurd h (by simp)
          · rename_i stats1 happ
            injection h with h1 h2
            injection h1 with h1
            have hjson' : isJson = true := by
              cases isJson
              · exact absurd rfl hjson
              · rfl
            refine ⟨i, data, stats, stats1, hf, hjson', rfl, heq, happ,
              h1.symm, ?_⟩
            rw [← h2, h1]
        · exact absurd h (by simp)

/-! ### Claims -/

/-- C1 counterexample: with store `[{"id":"p1"}]` (no engagement_stats), a
GET on the engagement endpoint returns the five counters freshly
initialized to 0 with the fresh timestamp, yet the persisted collection is
exactly the original store — the initialization is NOT persisted (the GET
branch of `update_product_engagement` performs no file write), refuting the
claim that the initialization is persisted when it was needed. -/
theorem c1_get_counterexample :
    update_product_engagement_GET [[("id", .jstr "p1")]] "p1"
        "2024-01-01T00:00:00" =
      (.okStats (.jobj (initialStats "2024-01-01T00:00:00")),
       [[("id", .jstr "p1")]]) := rfl

/-- C1 (amended): a GET on the engagement endpoint never writes the store —
the persisted collection always equals the collection read at the start —
and when the addressed product lacks engagement_stats the response carries
all five counters initialized to 0 with the fresh timestamp, in memory
only. -/
theorem c1_get_read_only (store : List JObj) (pid now : String) :
    (update_product_engagement_GET store pid now).2 = store ∧
    ∀ i, findProductIndex store pid 0 = .ok (some i) →
      hasKey (store.getD i []) "engagement_stats" = false →
      (update_product_engagement_GET store pid now).1 =
        .okStats (.jobj (initialStats now)) := by
  constructor
  · unfold update_product_engagement_GET
    split
    · rfl
    · rfl
    · split
      · rfl
      · rfl
  · intro i hf hmiss
    unfold update_product_engagement_GET
    simp only [hf]
    rw [ensureStats_of_not_hasKey _ _ hmiss, lookup_setKey_self]

/-- C1 witness: the amended theorem applied to the one-product store. -/
theorem c1_get_read_only_witness :
    (update_product_engagement_GET [[("id", .jstr "p1")]] "p1" "t9").2 =
        [[("id", .jstr "p1")]] ∧
    (update_product_engagement_GET [[("id", .jstr "p1")]] "p1" "t9").1 =
        .okStats (.jobj (initialStats "t9")) := by
  obtain ⟨h1, h2⟩ := c1_get_read_only [[("id", .jstr "p1")]] "p1" "t9"
  exact ⟨h1, h2 0 rfl rfl⟩

/-- C2 counterexample: product p1 already has an engagement_stats object
that lacks `views` (and three other counters).  A PUT of `views += 2`
succeeds but neither repairs the missing counters nor applies the delta:
the returned (and persisted) record still has no `views` counter, refuting
the claim that counters missing from an existing engagement_stats object
are lazily initialized to 0 on first access. -/
theorem c2_partial_stats_counterexample :
    update_product_engagement_PUT
        [[("id", .jstr "p1"), ("engagement_stats", .jobj [("likes", .jnum 1)])]]
        "p1" true (some (.jobj [("views", .jnum 2)])) "t1" =
      (.okRecord [("id", .jstr "p1"),
          ("engagement_stats",
           .jobj [("likes", .jnum 1), ("last_updated", .jstr "t1")])],
       [[("id", .jstr "p1"),
         ("engagement_stats",
          .jobj [("likes", .jnum 1), ("last_updated", .jstr "t1")])]]) ∧
    hasKey [("likes", JValue.jnum 1), ("last_updated", JValue.jstr "t1")]
      "views" = false :=
  ⟨rfl, rfl⟩

/-- C2 (amended): lazy initialization to all five zero counters happens
exactly when the record's engagement_stats object is entirely absent; a
record whose engagement_stats already exists is not repaired — after a
successful PUT its counter keys are exactly the keys it had before (plus
`last_updated`), so counters missing from a partial object stay missing. -/
theorem c2_lazy_init_only_when_absent (store : List JObj) (pid : String)
    (body : Option JValue) (now : String) (rec : JObj) (st' : List JObj)
    (i : Nat)
    (hf : findProductIndex store pid 0 = .ok (some i))
    (h : update_product_engagement_PUT store pid true body now =
          (.okRecord rec, st')) :
    ∃ stats2, lookupKey rec "engagement_stats" = some (.jobj stats2) ∧
      hasKey stats2 "last_updated" = true ∧
      (hasKey (store.getD i []) "engagement_stats" = false →
        hasKey stats2 "likes" = true ∧ hasKey stats2 "dislikes" = true ∧
        hasKey stats2 "rerolls" = true ∧ hasKey stats2 "routines" = true ∧
        hasKey stats2 "views" = true) ∧
      (∀ stats0,
        lookupKey (store.getD i []) "engagement_stats" = some (.jobj stats0) →
        ∀ k, k ≠ "last_updated" → hasKey stats2 k = hasKey stats0 k) := by
  obtain ⟨i', data, stats, stats1, hf', -, -, hl, happ, hrec, -⟩ :=
    update_PUT_ok_inv h
  rw [hf] at hf'
  injection hf' with h3
  injection h3 with h3
  subst h3
  refine ⟨setKey stats1 "last_updated" (.jstr now), ?_, ?_, ?_, ?_⟩
  · rw [hrec]; exact lookup_setKey_self _ _ _
  · exact hasKey_setKey_self _ _ _
  · intro hmiss
    rw [ensureStats_of_not_hasKey _ _ hmiss, lookup_setKey_self] at hl
    injection hl with hl
    injection hl with hl
    have hpres := applyDeltas_hasKey data stats stats1 happ
    refine ⟨?_, ?_, ?_, ?_, ?_⟩ <;>
      rw [hasKey_setKey_ne _ _ _ _ (by decide), hpres, ← hl] <;> rfl
  · intro stats0 hs0 k hk
    have hhk : hasKey (store.getD i []) "engagement_stats" = true := by
      unfold hasKey; rw [hs0]; rfl
    rw [ensureStats_of_hasKey _ _ hhk, hs0] at hl
    injection hl with hl
    injection hl with hl
    rw [hasKey_setKey_ne _ _ _ _ hk, applyDeltas_hasKey data stats stats1 happ,
        ← hl]

/-- C2 witness: a PUT of views += 2 to a product lacking engagement_stats
yields a fully initialized stats object. -/
theorem c2_lazy_init_only_when_absent_witness :
    ∃ stats2, lookupKey freshRecAfter "engagement_stats" = some (.jobj stats2) ∧
      hasKey stats2 "likes" = true ∧ hasKey stats2 "views" = true := by
  obtain ⟨stats2, h1, h2, h3, h4⟩ := c2_lazy_init_only_when_absent
      [[("id", .jstr "p1")]] "p1" (some (.jobj [("views", .jnum 2)])) "t1"
      freshRecAfter [freshRecAfter] 0 rfl rfl
  obtain ⟨hlikes, -, -, -, hviews⟩ := h3 rfl
  exact ⟨stats2, h1, hlikes, hviews⟩

/-- C3: on a successful PUT with an object body whose keys are unique,
every counter name present in both the body and the record's
engagement_stats (excluding `last_updated`) with a numeric delta and a
numeric stored value ends at stored value + delta in the returned record,
and the persisted collection is the store with exactly that record
replaced. -/
theorem c3_deltas_added (store : List JObj) (pid now : String)
    (data : List (String × JValue)) (i : Nat) (stats : JObj)
    (rec : JObj) (st' : List JObj)
    (hf : findProductIndex store pid 0 = .ok (some i))
    (hl : lookupKey (ensureStats (store.getD i []) now) "engagement_stats" =
          some (.jobj stats))
    (hnd : (data.map Prod.fst).Nodup)
    (h : update_product_engagement_PUT store pid true (some (.jobj data)) now =
          (.okRecord rec, st')) :
    st' = store.set i rec ∧
    ∃ stats2, lookupKey rec "engagement_stats" = some (.jobj stats2) ∧
      ∀ k v d cv cn, (k, v) ∈ data → k ≠ "last_updated" → pyNum v = some d →
        lookupKey stats k = some cv → pyNum cv = some cn →
        lookupKey stats2 k = some (.jnum (cn + d)) := by
  obtain ⟨i', data', stats', stats1, hf', -, hb, hl', happ, hrec, hst⟩ :=
    update_PUT_ok_inv h
  rw [hf] at hf'
  injection hf' with h3
  injection h3 with h3
  subst h3
  injection hb with hb
  injection hb with hb
  subst hb
  rw [hl] at hl'
  injection hl' with hl'
  injection hl' with hl'
  subst hl'
  refine ⟨hst, setKey stats1 "last_updated" (.jstr now), ?_, ?_⟩
  · rw [hrec]; exact lookup_setKey_self _ _ _
  · intro k v d cv cn hmem hk hd hcv hcn
    have hhk : hasKey stats k = true := by
      unfold hasKey; rw [hcv]; rfl
    have := applyDeltas_lookup_mem data stats stats1 happ hnd k v d hmem hhk
      hk hd
    rw [hcv] at this
    simp only [Option.getD_some, hcn] at this
    rw [lookup_setKey_ne _ _ _ _ hk, this]

/-- C3 witness: likes = 5 plus a delta of 3 gives likes = 8, and the store
is persisted with exactly the p1 record replaced. -/
theorem c3_deltas_added_witness :
    demoStoreAfter = demoStore.set 0 demoRecAfter ∧
    ∃ stats2,
      lookupKey demoRecAfter "engagement_stats" = some (.jobj stats2) ∧
      lookupKey stats2 "likes" = some (.jnum 8) := by
  obtain ⟨hset, stats2, h1, h2⟩ := c3_deltas_added demoStore "p1" "t1"
      [("likes", .jnum 3)] 0 demoStats demoRecAfter demoStoreAfter
      rfl rfl (by simp) rfl
  refine ⟨hset, stats2, h1, ?_⟩
  have := h2 "likes" (.jnum 3) 3 (.jnum 5) 5 (by simp) (by decide) rfl rfl rfl
  exact this

/-- C4 counterexample: a POST whose content type is JSON (so
`request.is_json` passes) but whose body is not parseable JSON makes
`request.json` raise; the exception is caught by the handler's outer
`except Exception` and answered with the generic 500, refuting the claim
that a payload that is not valid JSON always yields 400 and never 500. -/
theorem c4_invalid_json_counterexample :
    analyzeStatus (analyze_hair true none (fun _ => false) (fun _ => false)) =
      500 := rfl

/-- C4 (amended): `/api/analyze` returns 400 when the content type is not
JSON; when the body parses to a JSON object it returns 400 for a
missing/falsy image field, for a truthy non-string image value, and for an
image string that does not decode to a well-formed image; but a body that
fails to parse, or parses to a non-object, under a JSON content type is
caught by the generic handler and returns 500. -/
theorem c4_analyze_errors (body : Option JValue)
    (decodes classifies : String → Bool) :
    analyzeStatus (analyze_hair false body decodes classifies) = 400 ∧
    (∀ o, body = some (.jobj o) →
      (truthy ((lookupKey o "image").getD .jnull) = false →
        analyzeStatus (analyze_hair true body decodes classifies) = 400) ∧
      (∀ s, lookupKey o "image" = some (.jstr s) → truthy (.jstr s) = true →
        decodes (stripDataUri s) = false →
        analyzeStatus (analyze_hair true body decodes classifies) = 400) ∧
      (∀ v, lookupKey o "image" = some v → truthy v = true →
        (∀ s, v ≠ .jstr s) →
        analyzeStatus (analyze_hair true body decodes classifies) = 400)) ∧
    ((body = none ∨ ∃ x, body = some x ∧ ∀ o, x ≠ JValue.jobj o) →
      analyzeStatus (analyze_hair true body decodes classifies) = 500) := by
  refine ⟨rfl, ?_, ?_⟩
  · intro o hbody
    subst hbody
    refine ⟨?_, ?_, ?_⟩
    · intro htr
      simp [analyze_hair, analyzeStatus, htr]
    · intro s hlu htr hdec
      simp [analyze_hair, analyzeStatus, hlu, htr, hdec]
    · intro v hlu htr hns
      cases v with
      | jstr s => exact absurd rfl (hns s)
      | jnull => simp [truthy] at htr
      | jbool b => simp [analyze_hair, analyzeStatus, hlu, htr]
      | jnum n => simp [analyze_hair, analyzeStatus, hlu, htr]
      | jarr elems => simp [analyze_hair, analyzeStatus, hlu, htr]
      | jobj fields => simp [analyze_hair, analyzeStatus, hlu, htr]
  · intro hbad
    rcases hbad with hnone | ⟨x, hx, ho⟩
    · subst hnone; rfl
    · subst hx
      cases x with
      | jobj fields => exact absurd rfl (ho fields)
      | jnull => rfl
      | jbool b => rfl
      | jnum n => rfl
      | jstr s => rfl
      | jarr elems => rfl

/-- C4 witness: the amended theorem applied to a body carrying a
non-decodable image string. -/
theorem c4_analyze_errors_witness :
    analyzeStatus (analyze_hair true (some (.jobj [("image", .jstr "notb64")]))
      (fun _ => false) (fun _ => true)) = 400 := by
  obtain ⟨-, h2, -⟩ := c4_analyze_errors
      (some (.jobj [("image", .jstr "notb64")])) (fun _ => false) (fun _ => true)
  obtain ⟨-, hdec, -⟩ := h2 [("image", .jstr "notb64")] rfl
  exact hdec "notb64" rfl (by decide) rfl

/-- C5: on a successful PUT with an object body, `last_updated` in the
returned stats equals the fresh timestamp regardless of the body (so the
client cannot set it, and it is restamped even when nothing changed), a body
key not present in the record's engagement_stats changes nothing for that
key, and every stats key not mentioned in the body keeps its stored value. -/
theorem c5_unrecognized_ignored (store : List JObj) (pid now : String)
    (data : List (String × JValue)) (i : Nat) (stats : JObj)
    (rec : JObj) (st' : List JObj)
    (hf : findProductIndex store pid 0 = .ok (some i))
    (hl : lookupKey (ensureStats (store.getD i []) now) "engagement_stats" =
          some (.jobj stats))
    (h : update_product_engagement_PUT store pid true (some (.jobj data)) now =
          (.okRecord rec, st')) :
    ∃ stats2, lookupKey rec "engagement_stats" = some (.jobj stats2) ∧
      lookupKey stats2 "last_updated" = some (.jstr now) ∧
      (∀ k, k ≠ "last_updated" → hasKey stats k = false →
        lookupKey stats2 k = lookupKey stats k) ∧
      (∀ k, k ≠ "last_updated" → k ∉ data.map Prod.fst →
        lookupKey stats2 k = lookupKey stats k) := by
  obtain ⟨i', data', stats', stats1, hf', -, hb, hl', happ, hrec, -⟩ :=
    update_PUT_ok_inv h
  rw [hf] at hf'
  injection hf' with h3
  injection h3 with h3
  subst h3
  injection hb with hb
  injection hb with hb
  subst hb
  rw [hl] at hl'
  injection hl' with hl'
  injection hl' with hl'
  subst hl'
  refine ⟨setKey stats1 "last_updated" (.jstr now), ?_, ?_, ?_, ?_⟩
  · rw [hrec]; exact lookup_setKey_self _ _ _
  · exact lookup_setKey_self _ _ _
  · intro k hk hmiss
    rw [lookup_setKey_ne _ _ _ _ hk]
    exact applyDeltas_lookup_not_has data stats stats1 happ k hmiss
  · intro k hk hnot
    rw [lookup_setKey_ne _ _ _ _ hk]
    exact applyDeltas_lookup_not_mem data stats stats1 happ k hnot

/-- C5 witness: a PUT of `bogus_field += 100` to p1 leaves likes at 5 (and
`bogus_field` still absent) while last_updated is restamped to t1. -/
theorem c5_unrecognized_ignored_witness :
    ∃ stats2,
      lookupKey demoRecStamped "engagement_stats" = some (.jobj stats2) ∧
      lookupKey stats2 "last_updated" = some (.jstr "t1") ∧
      lookupKey stats2 "likes" = some (.jnum 5) ∧
      lookupKey stats2 "bogus_field" = none := by
  obtain ⟨stats2, h1, h2, h3, h4⟩ := c5_unrecognized_ignored demoStore "p1"
      "t1" [("bogus_field", .jnum 100)] 0 demoStats demoRecStamped
      demoStoreStamped rfl rfl rfl
  refine ⟨stats2, h1, h2, ?_, ?_⟩
  · rw [h4 "likes" (by decide) (by simp)]; rfl
  · rw [h3 "bogus_field" (by decide) (by rfl)]; rfl

/-- C6: on a successful single-delta PUT whose target counter holds a
non-numeric (corrupted) stored value, the stored value is treated as 0, so
the counter in the returned stats equals the delta. -/
theorem c6_corrupt_coerced (store : List JObj) (pid now k : String) (d : Int)
    (cv : JValue) (i : Nat) (stats : JObj) (rec : JObj) (st' : List JObj)
    (hf : findProductIndex store pid 0 = .ok (some i))
    (hl : lookupKey (ensureStats (store.getD i []) now) "engagement_stats" =
          some (.jobj stats))
    (hcv : lookupKey stats k = some cv)
    (hnn : pyNum cv = none)
    (hk : k ≠ "last_updated")
    (h : update_product_engagement_PUT store pid true
          (some (.jobj [(k, .jnum d)])) now = (.okRecord rec, st')) :
    ∃ stats2, lookupKey rec "engagement_stats" = some (.jobj stats2) ∧
      lookupKey stats2 k = some (.jnum d) := by
  obtain ⟨i', data', stats', stats1, hf', -, hb, hl', happ, hrec, -⟩ :=
    update_PUT_ok_inv h
  rw [hf] at hf'
  injection hf' with h3
  injection h3 with h3
  subst h3
  injection hb with hb
  injection hb with hb
  subst hb
  rw [hl] at hl'
  injection hl' with hl'
  injection hl' with hl'
  subst hl'
  refine ⟨setKey stats1 "last_updated" (.jstr now), ?_, ?_⟩
  · rw [hrec]; exact lookup_setKey_self _ _ _
  · have hhk : hasKey stats k = true := by
      unfold hasKey; rw [hcv]; rfl
    have := applyDeltas_lookup_mem [(k, .jnum d)] stats stats1 happ
      (by simp) k (.jnum d) d (by simp) hhk hk rfl
    rw [hcv] at this
    simp only [Option.getD_some, hnn, Option.getD_none, Int.zero_add] at this
    rw [lookup_setKey_ne _ _ _ _ hk, this]

/-- C6 witness: likes stored as the string "corrupt" plus a delta of 7
yields likes = 7. -/
theorem c6_corrupt_coerced_witness :
    ∃ stats2,
      lookupKey corruptRecAfter "engagement_stats" = some (.jobj stats2) ∧
      lookupKey stats2 "likes" = some (.jnum 7) := by
  obtain ⟨stats2, h1, h2⟩ := c6_corrupt_coerced corruptStore "p1" "t1" "likes"
      7 (.jstr "corrupt") 0 corruptStats corruptRecAfter [corruptRecAfter]
      rfl rfl rfl rfl (by decide) rfl
  exact ⟨stats2, h1, h2⟩

/-- C7: bulk engagement initialization is idempotent on the stored data —
running it twice in a row (with any two timestamps) leaves the persisted
collection after the second call identical to the one after the first call,
because after the first call every record has engagement_stats. -/
theorem c7_init_idempotent (store : List JObj) (now1 now2 : String) :
    (initialize_all_product_engagement
        (initialize_all_product_engagement store now1).2 now2).2 =
      (initialize_all_product_engagement store now1).2 := by
  simp only [initialize_all_product_engagement, List.map_map,
    Function.comp_def]
  simp only [ensureStats_idem]

/-- C8: bulk engagement initialization reports the count of records
processed (the length of the whole collection), preserves the collection's
length, leaves every record that already had engagement_stats unchanged,
and gives every record that lacked it the all-zero counters with the one
shared batch timestamp (the same `now` for every record, computed once);
the collection is persisted as a single whole-file write. -/
theorem c8_bulk_init (store : List JObj) (now : String) :
    (initialize_all_product_engagement store now).1 =
      "Initialized engagement stats for " ++ toString store.length ++
        " products" ∧
    (initialize_all_product_engagement store now).2.length = store.length ∧
    ∀ i, i < store.length →
      (hasKey (store.getD i []) "engagement_stats" = true →
        (initialize_all_product_engagement store now).2.getD i [] =
          store.getD i []) ∧
      (hasKey (store.getD i []) "engagement_stats" = false →
        lookupKey ((initialize_all_product_engagement store now).2.getD i [])
            "engagement_stats" = some (.jobj (initialStats now))) := by
  refine ⟨rfl, by simp [initialize_all_product_engagement], ?_⟩
  intro i hi
  constructor
  · intro hk
    show (store.map (fun p => ensureStats p now)).getD i [] = store.getD i []
    rw [getD_map_ensureStats store now i hi, ensureStats_of_hasKey _ _ hk]
  · intro hk
    show lookupKey ((store.map (fun p => ensureStats p now)).getD i [])
        "engagement_stats" = some (.jobj (initialStats now))
    rw [getD_map_ensureStats store now i hi,
        ensureStats_of_not_hasKey _ _ hk, lookup_setKey_self]

/-- C8 witness: on the two-product demo store the message counts both
records, the record that had stats is untouched, and the record that lacked
them is initialized with the batch timestamp. -/
theorem c8_bulk_init_witness :
    (initialize_all_product_engagement demoStore "tb").1 =
      "Initialized engagement stats for 2 products" ∧
    (initialize_all_product_engagement demoStore "tb").2.getD 0 [] =
      demoStore.getD 0 [] ∧
    lookupKey ((initialize_all_product_engagement demoStore "tb").2.getD 1 [])
        "engagement_stats" = some (.jobj (initialStats "tb")) := by
  obtain ⟨h1, h2, h3⟩ := c8_bulk_init demoStore "tb"
  exact ⟨h1.trans rfl, (h3 0 (by decide)).1 rfl, (h3 1 (by decide)).2 rfl⟩

/-- C9: the PUT branch is atomic on error — whenever the handler answers
with the 500 server-error response (for example when a non-numeric delta
raises while being added), the persisted collection is exactly the
collection read at the start of the request; the file write only happens
after every delta has been applied. -/
theorem c9_error_atomic (store : List JObj) (pid : String) (isJson : Bool)
    (body : Option JValue) (now : String) (st' : List JObj)
    (h : update_product_engagement_PUT store pid isJson body now =
          (.serverError, st')) :
    st' = store := by
  unfold update_product_engagement_PUT at h
  split at h
  · injection h with h1 h2; exact h2.symm
  · exact absurd h (by simp)
  · split at h
    · exact absurd h (by simp)
    · split at h
      · injection h with h1 h2; exact h2.symm
      · split at h
        · split at h
          · injection h with h1 h2; exact h2.symm
          · exact absurd h (by simp)
        · injection h with h1 h2; exact h2.symm

/-- C9 witness: a PUT whose delta for likes is the string "three" raises in
the addition, answers 500, and persists nothing. -/
theorem c9_error_atomic_witness :
    update_product_engagement_PUT demoStore "p1" true
        (some (.jobj [("likes", .jstr "three")])) "t1" =
      (.serverError, demoStore) := by
  have hsnd := c9_error_atomic demoStore "p1" true
      (some (.jobj [("likes", .jstr "three")])) "t1"
      (update_product_engagement_PUT demoStore "p1" true
        (some (.jobj [("likes", .jstr "three")])) "t1").2 rfl
  calc update_product_engagement_PUT demoStore "p1" true
          (some (.jobj [("likes", .jstr "three")])) "t1"
      = (.serverError,
         (update_product_engagement_PUT demoStore "p1" true
           (some (.jobj [("likes", .jstr "three")])) "t1").2) := rfl
    _ = (.serverError, demoStore) := by rw [hsnd]

/-- C10: a successful PUT for the product found at index i persists exactly
the store with that one record replaced — the length is unchanged, every
other index holds the record read at the start, and within the returned
record every key other than engagement_stats has the value the stored
record had. -/
theorem c10_frame (store : List JObj) (pid : String) (isJson : Bool)
    (body : Option JValue) (now : String) (rec : JObj) (st' : List JObj)
    (i : Nat)
    (hf : findProductIndex store pid 0 = .ok (some i))
    (h : update_product_engagement_PUT store pid isJson body now =
          (.okRecord rec, st')) :
    st' = store.set i rec ∧
    st'.length = store.length ∧
    (∀ j, j ≠ i → st'.getD j [] = store.getD j []) ∧
    (∀ k, k ≠ "engagement_stats" →
      lookupKey rec k = lookupKey (store.getD i []) k) := by
  obtain ⟨i', data, stats, stats1, hf', -, -, hl, happ, hrec, hst⟩ :=
    update_PUT_ok_inv h
  rw [hf] at hf'
  injection hf' with h3
  injection h3 with h3
  subst h3
  refine ⟨hst, ?_, ?_, ?_⟩
  · rw [hst, List.length_set]
  · intro j hj
    rw [hst]
    exact getD_set_of_ne store i j rec hj
  · intro k hk
    rw [hrec, lookup_setKey_ne _ _ _ _ hk, lookup_ensureStats_ne _ _ _ hk]

/-- C10 witness: the likes += 3 PUT to p1 leaves the p2 record and the id
field of p1 untouched. -/
theorem c10_frame_witness :
    demoStoreAfter = demoStore.set 0 demoRecAfter ∧
    demoStoreAfter.getD 1 [] = demoStore.getD 1 [] ∧
    lookupKey demoRecAfter "id" = lookupKey (demoStore.getD 0 []) "id" := by
  obtain ⟨h1, h2, h3, h4⟩ := c10_frame demoStore "p1" true
      (some (.jobj [("likes", .jnum 3)])) "t1" demoRecAfter demoStoreAfter 0
      rfl rfl
  exact ⟨h1, h3 1 (by decide), h4 "id" (by decide)⟩
